import Mathlib

/-!
Verification development for the Enrichment_agent repository.

The Python sources are shallowly embedded as Lean definitions:

* `cache.py`                within namespace `Cache` (the `EventCache` class);
* `email-open-discord-notifier/main.py`
                            within namespace `Main` (webhook endpoint and
                            `process_webhook_event`);
* `closeio.py`              within namespace `CloseIOClient` (signature
                            verification, polling-side lead enrichment);
* `email-open-discord-notifier/src/discord_notifier.py`
                            within namespace `Discord`;
* `database.py`             within namespace `DB` (`log_email_open` and the
                            derived analytics fields);
* `linkedin_scraper.py`     within namespace `Scraper` (provider fallback).

Python `datetime` values are modelled as `Int` seconds since the Unix epoch
(naive timestamps).  `datetime.hour`, `datetime.weekday()` and the calendar
fields are computed from that representation with floor division /
floor modulo (`Int.ediv` / `Int.emod`), matching Python semantics.
Network effects (HTTP calls that can raise) are passed in as explicit
`Except`-valued parameters; a `.error` value models a raised exception at
that call site.
-/

namespace Time

/-- Python `datetime.hour` of a naive timestamp given as seconds since the
epoch: floor-divide by 3600 and take the residue mod 24. -/
def hourOf (t : Int) : Int := (Int.ediv t 3600).emod 24

/-- Python `datetime.weekday()` (0 = Monday .. 6 = Sunday) of a timestamp in
seconds since the epoch; 1970-01-01 was a Thursday (weekday 3). -/
def weekdayOf (t : Int) : Int := (Int.ediv t 86400 + 3).emod 7

/-- Civil date (year, month, day) of a day count since 1970-01-01, the
standard era-based conversion; models the `.year`, `.month`, `.day` fields
and `strftime("%Y-%m-%d")` of a Python datetime. -/
def civilFromDays (z0 : Int) : Int × Int × Int :=
  let z := z0 + 719468
  let era := Int.ediv z 146097
  let doe := z - era * 146097
  let yoe := Int.ediv (doe - Int.ediv doe 1460 + Int.ediv doe 36524 - Int.ediv doe 146096) 365
  let y := yoe + era * 400
  let doy := doe - (365 * yoe + Int.ediv yoe 4 - Int.ediv yoe 100)
  let mp := Int.ediv (5 * doy + 2) 153
  let d := doy - Int.ediv (153 * mp + 2) 5 + 1
  let m := mp + (if mp < 10 then 3 else -9)
  (y + (if m ≤ 2 then 1 else 0), m, d)

/-- Civil date of a timestamp in seconds since the epoch. -/
def dateOf (t : Int) : Int × Int × Int := civilFromDays (Int.ediv t 86400)

/-- `year_opened` field: year of the timestamp. -/
def yearOf (t : Int) : Int := (dateOf t).1

/-- `month_opened` field: month of the timestamp. -/
def monthOf (t : Int) : Int := (dateOf t).2.1

end Time

namespace Cache

/-- The `EventCache` of `cache.py`: an in-memory dict mapping an identifier
to the timestamp at which it was marked notified.  The Python dict is
modelled as an association list with at most one entry per key (the
`mark_notified` update removes any previous binding).  The key type is kept
generic: `cache.py` annotates it `str`, while `process_webhook_event` passes
`data.get("id")`, which may be `None` (`Option String`). -/
structure EventCache (κ : Type) where
  entries : List (κ × Int) := []
deriving Repr, DecidableEq

variable {κ : Type} [DecidableEq κ]

/-- `EventCache._cleanup_old_entries`: remove every entry whose timestamp is
strictly older than `now - retention`. -/
def EventCache.cleanup_old_entries (c : EventCache κ) (now ret : Int) : EventCache κ :=
  ⟨c.entries.filter (fun p => decide (¬ p.2 < now - ret))⟩

/-- `EventCache.is_notified`: purge expired entries, then report membership.
Returns the answer together with the mutated cache (the purge is a real side
effect on the shared cache). -/
def EventCache.is_notified (c : EventCache κ) (email_id : κ) (now ret : Int) :
    Bool × EventCache κ :=
  let c' := c.cleanup_old_entries now ret
  (c'.entries.any (fun p => decide (p.1 = email_id)), c')

/-- `EventCache.mark_notified`: dict assignment `cache[email_id] = now`
(replaces any previous binding for the key). -/
def EventCache.mark_notified (c : EventCache κ) (email_id : κ) (now : Int) :
    EventCache κ :=
  ⟨c.entries.filter (fun p => decide (¬ p.1 = email_id)) ++ [(email_id, now)]⟩

/-- `EventCache.clear`: drop all entries. -/
def EventCache.clear (_c : EventCache κ) : EventCache κ := ⟨[]⟩

/-- Result shape of `EventCache.get_stats`. -/
structure CacheStats where
  cache_size : Nat
  total_count : Nat
  oldest_entry : Option Int
deriving Repr, DecidableEq

/-- `EventCache.get_stats`: both `cache_size` and `total_count` are
`len(self._cache)`; `oldest_entry` is the minimum stored timestamp. -/
def EventCache.get_stats (c : EventCache κ) : CacheStats :=
  { cache_size := c.entries.length
    total_count := c.entries.length
    oldest_entry := (c.entries.map Prod.snd).min? }

end Cache

/-- Python string truthiness for `Optional[str]` values: `None` and the
empty string are falsy (`if not signature`, `if settings.X`, ...). -/
def strTruthy (o : Option String) : Bool := decide (¬ o.getD "" = "")

namespace Models

/-- `EmailOpenEvent` of `models.py` (pydantic model): all identifier fields
are declared `str`, so construction with a `None` id raises a validation
error; the Lean pipeline below only constructs it from present ids. -/
structure EmailOpenEvent where
  email_id : String
  lead_id : String
  lead_name : String
  subject : String
  recipient : String
  opens_count : Nat
  opened_at : Int
deriving Repr, DecidableEq

end Models

namespace CloseIOClient

/-- A Close.io lead as returned by `CloseIOClient.get_lead`: the only field
the pipeline reads is `display_name` (via `dict.get`, hence optional). -/
structure Lead where
  display_name : Option String := none
deriving Repr, DecidableEq

/-- `CloseIOClient.verify_webhook_signature`.  `hmacHex key msg` abstracts
`hmac.new(key, msg, sha256).hexdigest()`; the constant-time
`hmac.compare_digest` is modelled by its value semantics, string equality.
The signed message is `timestamp || payload`. -/
def verify_webhook_signature (secret : Option String)
    (hmacHex : String → String → String)
    (payload timestamp signature : String) : Bool :=
  if ¬ strTruthy secret then
    true
  else
    decide (hmacHex (secret.getD "") (timestamp ++ payload) = signature)

/-- The per-event lead-name enrichment of
`CloseIOClient.get_recent_email_opens` (polling path, `closeio.py` lines
93–99): `get_lead` is attempted; on success the name is
`lead.get("display_name", "Unknown")`, and any exception is swallowed and
replaced by the sentinel `"Unknown"`. -/
def polling_lead_name (getLead : Option String → Except Unit Lead)
    (lead_id : Option String) : String :=
  match getLead lead_id with
  | .ok lead => lead.display_name.getD "Unknown"
  | .error _ => "Unknown"

end CloseIOClient

namespace Discord

/-- One configured Discord destination (`{"url": ..., "name": ...}`). -/
structure Webhook where
  url : String
  name : String
deriving Repr, DecidableEq

/-- The destination filter of `DiscordNotifier.send_email_open_notification`:
with a truthy `webhook_name` only destinations of that name are used,
otherwise all configured destinations. -/
def webhooks_to_use (webhooks : List Webhook) (webhook_name : Option String) :
    List Webhook :=
  if strTruthy webhook_name then
    webhooks.filter (fun w => decide (w.name = webhook_name.getD ""))
  else
    webhooks

/-- The delivery loop of `send_email_open_notification`: each destination is
posted to in turn; a raising post (`deliver w = .error`) is caught and
logged, and the loop continues.  Returns the destinations whose post
succeeded. -/
def send_loop (deliver : Webhook → Except Unit Unit) :
    List Webhook → List Webhook
  | [] => []
  | w :: ws =>
    match deliver w with
    | .ok _ => w :: send_loop deliver ws
    | .error _ => send_loop deliver ws

/-- `DiscordNotifier.send_email_open_notification`: build one payload from
the event, select the destinations, and best-effort post to each.  The
return type is a plain list (not `Except`): per-destination failures are
swallowed inside the loop, so the call never raises to the caller.  Each
element `(w, event)` records that destination `w` received the payload
rendered from `event`. -/
def send_email_open_notification (webhooks : List Webhook)
    (deliver : Webhook → Except Unit Unit)
    (event : Models.EmailOpenEvent) (webhook_name : Option String) :
    List (Webhook × Models.EmailOpenEvent) :=
  (send_loop deliver (webhooks_to_use webhooks webhook_name)).map
    (fun w => (w, event))

end Discord

namespace DB

/-- A row of `email_open_log` (`database.py`), with the derived calendar
fields computed at write time.  `date_opened` (a `"%Y-%m-%d"` string in the
source) is modelled as the (year, month, day) triple it renders. -/
structure EmailOpenLog where
  email_id : String
  lead_id : String
  lead_name : String
  subject : String
  recipient : String
  opens_count : Nat
  opened_at : Int
  notified_at : Int
  date_opened : Int × Int × Int
  year_opened : Int
  month_opened : Int
  hour_opened : Int
  day_of_week : Int
deriving Repr, DecidableEq

/-- `log_email_open` (`database.py` lines 120–159): build the row that is
appended to the analytics store.  All derived fields are computed from the
`opened_at` argument; `notified_at` is `datetime.now()` (the `now`
parameter). -/
def log_email_open (email_id lead_id lead_name subject recipient : String)
    (opens_count : Nat) (opened_at now : Int) : EmailOpenLog :=
  { email_id := email_id
    lead_id := lead_id
    lead_name := lead_name
    subject := subject
    recipient := recipient
    opens_count := opens_count
    opened_at := opened_at
    notified_at := now
    date_opened := Time.dateOf opened_at
    year_opened := Time.yearOf opened_at
    month_opened := Time.monthOf opened_at
    hour_opened := Time.hourOf opened_at
    day_of_week := Time.weekdayOf opened_at }

end DB

namespace Main

/-- One element of `data["to"]`. -/
structure ToEntry where
  email : Option String := none
deriving Repr, DecidableEq

/-- One element of `data["opens"]` (only its `opened_at` string matters; the
webhook path never reads it, only counts the list). -/
structure OpenEntry where
  opened_at : Option String := none
deriving Repr, DecidableEq

/-- The `data` dict of a Close.io webhook event; defaults mirror the
`dict.get` defaults used by `process_webhook_event`. -/
structure WebhookData where
  id : Option String := none
  lead_id : Option String := none
  subject : String := ""
  to_field : List ToEntry := []
  opens : List OpenEntry := []
deriving Repr, DecidableEq

/-- The `event` dict of a webhook payload. -/
structure WebhookEventData where
  object_type : Option String := none
  action : Option String := none
  changed_fields : List String := []
  data : WebhookData := {}
deriving Repr, DecidableEq

/-- The whole webhook payload (`payload.get("event", {})`). -/
structure WebhookPayload where
  event : WebhookEventData := {}
deriving Repr, DecidableEq

/-- Mutable state threaded through the notifier service: the shared dedup
cache (keyed by the raw `data.get("id")`, hence `Option String`), the
events for which a Discord notification was dispatched, and the rows
appended to the analytics database. -/
structure PipelineState where
  cache : Cache.EventCache (Option String) := {}
  notifications : List Models.EmailOpenEvent := []
  analytics : List DB.EmailOpenLog := []
deriving Repr, DecidableEq

/-- The initial service state (empty cache, nothing sent or logged). -/
def initState : PipelineState := {}

/-- The recipient extraction of `process_webhook_event`:
`data.get("to", [{}])[0].get("email", "") if data.get("to") else ""`. -/
def recipient_of (to_field : List ToEntry) : String :=
  match to_field with
  | [] => ""
  | e :: _ => e.email.getD ""

/-- Response of the `/webhook/closeio` endpoint before background
processing: acceptance, or a 401 with the given detail. -/
inductive WebhookResponse
  | received
  | unauthorized (detail : String)
deriving Repr, DecidableEq

/-- The authentication gate of the `closeio_webhook` endpoint (`main.py`
lines 104–134): with a truthy configured secret, reject when either header
is missing/empty, otherwise verify the HMAC signature; with no secret,
accept unconditionally (the signature branch is skipped). -/
def closeio_webhook (secret : Option String)
    (hmacHex : String → String → String) (body : String)
    (signature timestamp : Option String) : WebhookResponse :=
  if strTruthy secret then
    if ¬ strTruthy signature ∨ ¬ strTruthy timestamp then
      .unauthorized "Missing signature headers"
    else if CloseIOClient.verify_webhook_signature secret hmacHex body
        (timestamp.getD "") (signature.getD "") then
      .received
    else
      .unauthorized "Invalid signature"
  else
    .received

/-- `process_webhook_event` (`main.py` lines 137–202).  External effects
are explicit parameters: `getLead` is the Close.io lead lookup (a `.error`
models a raised HTTP error), `notifyOk` is whether the Discord dispatch
returns normally (in the shipped notifier it always does, per-destination
failures being swallowed), `logOk` is whether the analytics write commits
(`False` models a raised database error), and `now` is `datetime.now()`.
The whole body runs inside `try/except`: an exception at any step drops the
event but keeps the effects already performed (including the purge that
`is_notified` does on the shared cache). -/
def process_webhook_event
    (getLead : Option String → Except Unit CloseIOClient.Lead)
    (notifyOk logOk : Bool) (now ret : Int)
    (st : PipelineState) (payload : WebhookPayload) : PipelineState :=
  let event := payload.event
  if ¬ event.object_type = some "activity.email" ∨ ¬ event.action = some "updated" then
    st
  else if "opens" ∉ event.changed_fields then
    st
  else
    let data := event.data
    let email_id := data.id
    let lead_id := data.lead_id
    let subject := data.subject
    let recipient := recipient_of data.to_field
    let opens_count := data.opens.length
    let checked := st.cache.is_notified email_id now ret
    let st := { st with cache := checked.2 }
    if checked.1 then
      st
    else
      match getLead lead_id with
      | .error _ => st
      | .ok lead_info =>
        let lead_name := (lead_info.display_name).getD "Unknown"
        match email_id, lead_id with
        | some eid, some lid =>
          let email_event : Models.EmailOpenEvent :=
            { email_id := eid, lead_id := lid, lead_name := lead_name
              subject := subject, recipient := recipient
              opens_count := opens_count, opened_at := now }
          if ¬ notifyOk then
            st
          else
            let st := { st with notifications := st.notifications ++ [email_event] }
            if ¬ logOk then
              st
            else
              let row := DB.log_email_open eid lid lead_name subject recipient
                opens_count email_event.opened_at now
              { st with analytics := st.analytics ++ [row]
                        cache := st.cache.mark_notified email_id now }
        | _, _ => st

/-- The `/stats` endpoint response (`main.py` lines 265–274). -/
structure StatsResponse where
  total_notifications : Nat
  cache_size : Nat
  oldest_entry : Option Int
deriving Repr, DecidableEq

/-- `get_stats` endpoint: read the cache statistics and expose
`total_count` as `total_notifications`. -/
def get_stats (c : Cache.EventCache (Option String)) : StatsResponse :=
  let s := c.get_stats
  { total_notifications := s.total_count
    cache_size := s.cache_size
    oldest_entry := s.oldest_entry }

end Main

namespace Scraper

/-- `LinkedInCompanyData` of `models.py` (research agent). -/
structure LinkedInCompanyData where
  name : Option String := none
  industry : Option String := none
  company_size : Option String := none
  headquarters : Option String := none
  founded : Option String := none
  specialties : List String := []
  description : Option String := none
  website : Option String := none
  employee_count : Option Int := none
  source : String := "bright_data"
deriving Repr, DecidableEq

/-- `LinkedInPost` of `models.py`.  `published_at` is the already-parsed
timestamp (`_parse_date` of an ISO string, `none` when absent or
unparsable). -/
structure LinkedInPost where
  post_url : Option String := none
  author : Option String := none
  content : Option String := none
  likes : Int := 0
  comments : Int := 0
  shares : Int := 0
  published_at : Option Int := none
  source : String := "bright_data"
deriving Repr, DecidableEq

/-- The provider-specific company payload a scraping backend yields on
success (field names already looked up with their `dict.get` defaults). -/
structure RawCompany where
  name : Option String := none
  industry : Option String := none
  company_size : Option String := none
  headquarters : Option String := none
  founded : Option String := none
  specialties : List String := []
  description : Option String := none
  website : Option String := none
  employee_count : Option Int := none
deriving Repr, DecidableEq

/-- `LinkedInScraper._parse_employee_count`: first run of digits in the
company-size string (`re.findall` then `int` of the first match), `none`
when the string is falsy or contains no digit. -/
def parse_employee_count (size_str : Option String) : Option Int :=
  if ¬ strTruthy size_str then none
  else
    let digits := ((size_str.getD "").toList.dropWhile (fun c => ¬ c.isDigit)).takeWhile
      (fun c => c.isDigit)
    if digits = [] then none
    else some (digits.foldl (fun acc c => acc * 10 + (c.toNat - 48)) (0 : Int))

/-- `LinkedInScraper.__init__` configuration: API keys are strings with
`""` meaning unset (`if self.brightdata_key` truthiness) and the joeyism
fallback is a boolean flag. -/
structure ScraperConfig where
  brightdata_key : Option String := none
  apify_key : Option String := none
  use_joeyism : Bool := false
deriving Repr, DecidableEq

/-- `_scrape_company_brightdata`: on HTTP success, tag the record with
`source = "bright_data"`.  The network call outcome is the parameter. -/
def scrape_company_brightdata (outcome : Except Unit RawCompany) :
    Except Unit LinkedInCompanyData :=
  outcome.map fun d =>
    { name := d.name, industry := d.industry, company_size := d.company_size
      headquarters := d.headquarters, founded := d.founded
      specialties := d.specialties, description := d.description
      website := d.website, employee_count := d.employee_count
      source := "bright_data" }

/-- `_scrape_company_apify`: on success, tag with `source = "apify"`; the
employee count is parsed from the `companySize` string. -/
def scrape_company_apify (outcome : Except Unit RawCompany) :
    Except Unit LinkedInCompanyData :=
  outcome.map fun d =>
    { name := d.name, industry := d.industry, company_size := d.company_size
      headquarters := d.headquarters, founded := d.founded
      specialties := d.specialties, description := d.description
      website := d.website
      employee_count := parse_employee_count d.company_size
      source := "apify" }

/-- `_scrape_company_joeyism`: on success, tag with `source = "joeyism"`
and no employee count. -/
def scrape_company_joeyism (outcome : Except Unit RawCompany) :
    Except Unit LinkedInCompanyData :=
  outcome.map fun d =>
    { name := d.name, industry := d.industry, company_size := d.company_size
      headquarters := d.headquarters, founded := d.founded
      specialties := d.specialties, description := d.description
      website := d.website, employee_count := none
      source := "joeyism" }

/-- `LinkedInScraper.scrape_company` (`linkedin_scraper.py` lines 34–68):
try Bright Data, then Apify, then joeyism, each gated on its configuration;
an exception from one provider is logged and the next is tried.  The second
component is the trace of providers actually invoked.  Exhaustion raises
`ValueError` with the message recorded in the `.error` result. -/
def scrape_company (cfg : ScraperConfig)
    (bd ap jo : Except Unit RawCompany) :
    Except String LinkedInCompanyData × List String :=
  let step3 (trace : List String) :
      Except String LinkedInCompanyData × List String :=
    if cfg.use_joeyism then
      match scrape_company_joeyism jo with
      | .ok r => (.ok r, trace ++ ["joeyism"])
      | .error _ => (.error "All LinkedIn scraping methods failed", trace ++ ["joeyism"])
    else
      (.error "No LinkedIn scraping method available", trace)
  let step2 (trace : List String) :
      Except String LinkedInCompanyData × List String :=
    if strTruthy cfg.apify_key then
      match scrape_company_apify ap with
      | .ok r => (.ok r, trace ++ ["apify"])
      | .error _ => step3 (trace ++ ["apify"])
    else
      step3 trace
  if strTruthy cfg.brightdata_key then
    match scrape_company_brightdata bd with
    | .ok r => (.ok r, ["bright_data"])
    | .error _ => step2 ["bright_data"]
  else
    step2 []

/-- The raw payload of one post from a backend. -/
structure RawPost where
  post_url : Option String := none
  author : Option String := none
  content : Option String := none
  likes : Int := 0
  comments : Int := 0
  shares : Int := 0
  published_at : Option Int := none
deriving Repr, DecidableEq

/-- Post tagging shared shape: a raw post mapped to a `LinkedInPost` with
the given source label. -/
def tagPost (src : String) (p : RawPost) : LinkedInPost :=
  { post_url := p.post_url, author := p.author, content := p.content
    likes := p.likes, comments := p.comments, shares := p.shares
    published_at := p.published_at, source := src }

/-- `_get_posts_brightdata`: every returned post is tagged
`source = "bright_data"`. -/
def get_posts_brightdata (outcome : Except Unit (List RawPost)) :
    Except Unit (List LinkedInPost) :=
  outcome.map fun ps => ps.map (tagPost "bright_data")

/-- `_get_posts_apify`: the results are truncated to `limit`
(`results[:limit]`) and tagged `source = "apify"`. -/
def get_posts_apify (outcome : Except Unit (List RawPost)) (limit : Nat) :
    Except Unit (List LinkedInPost) :=
  outcome.map fun ps => (ps.take limit).map (tagPost "apify")

/-- `LinkedInScraper.get_company_posts` (`linkedin_scraper.py` lines
198–230): try Bright Data then Apify; a final Apify failure and the
no-provider case both return the empty list, never an error.  The result is
wrapped in `Except String` only to share the shape of `scrape_company`; all
paths of this source function return normally (`.ok`). -/
def get_company_posts (cfg : ScraperConfig)
    (bd ap : Except Unit (List RawPost)) (limit : Nat) :
    Except String (List LinkedInPost) × List String :=
  let step2 (trace : List String) :
      Except String (List LinkedInPost) × List String :=
    if strTruthy cfg.apify_key then
      match get_posts_apify ap limit with
      | .ok ps => (.ok ps, trace ++ ["apify"])
      | .error _ => (.ok [], trace ++ ["apify"])
    else
      (.ok [], trace)
  if strTruthy cfg.brightdata_key then
    match get_posts_brightdata bd with
    | .ok ps => (.ok ps, ["bright_data"])
    | .error _ => step2 ["bright_data"]
  else
    step2 []

/-- A scraped profile dict (opaque JSON object), modelled as a key/value
list; `{}` is the empty list. -/
def ProfileDict : Type := List (String × String)

instance : DecidableEq ProfileDict := by
  unfold ProfileDict
  infer_instance

/-- `LinkedInScraper.scrape_profile` (`linkedin_scraper.py` lines 342–359):
only Bright Data is tried; a failure or an unconfigured key returns the
empty dict `{}`, never an error. -/
def scrape_profile (cfg : ScraperConfig)
    (bd : Except Unit ProfileDict) :
    Except String ProfileDict × List String :=
  if strTruthy cfg.brightdata_key then
    match bd with
    | .ok d => (.ok d, ["bright_data"])
    | .error _ => (.ok [], ["bright_data"])
  else
    (.ok [], [])

end Scraper

/-- Fixture: the inbound webhook payload of the end-to-end scenario
(object_type `activity.email`, action `updated`, changed field `opens`,
email id `e1`, lead id `L1`, one recorded open). -/
def payload9 : Main.WebhookPayload :=
  { event := { object_type := some "activity.email", action := some "updated"
               changed_fields := ["opens"]
               data := { id := some "e1", lead_id := some "L1"
                         opens := [{ opened_at := some "2025-01-01T10:00:00" }] } } }

/-- Fixture: a lead whose display name resolves. -/
def leadAcme : CloseIOClient.Lead := { display_name := some "Acme" }

/-- Fixture: a lead lookup that always succeeds with `leadAcme`. -/
def getLeadAcme : Option String → Except Unit CloseIOClient.Lead := fun _ => .ok leadAcme

/-- Fixture: a lead lookup that always raises. -/
def getLeadFail : Option String → Except Unit CloseIOClient.Lead := fun _ => .error ()

/-- Helper: a run of `process_webhook_event` on a relevant payload whose id
is not in the cache, with every effect succeeding, appends exactly one
notification and one analytics row and marks the id. -/
theorem process_full_run
    (getLead : Option String → Except Unit CloseIOClient.Lead) (lead : CloseIOClient.Lead)
    (st : Main.PipelineState) (payload : Main.WebhookPayload)
    (i l : String) (now ret : Int)
    (hot : payload.event.object_type = some "activity.email")
    (hact : payload.event.action = some "updated")
    (hcf : "opens" ∈ payload.event.changed_fields)
    (hid : payload.event.data.id = some i)
    (hlid : payload.event.data.lead_id = some l)
    (hgl : getLead (some l) = .ok lead)
    (hmiss : (st.cache.is_notified (some i) now ret).1 = false) :
    Main.process_webhook_event getLead true true now ret st payload =
      { cache := ((st.cache.is_notified (some i) now ret).2).mark_notified (some i) now
        notifications := st.notifications ++
          [{ email_id := i, lead_id := l
             lead_name := lead.display_name.getD "Unknown"
             subject := payload.event.data.subject
             recipient := Main.recipient_of payload.event.data.to_field
             opens_count := payload.event.data.opens.length
             opened_at := now }]
        analytics := st.analytics ++
          [DB.log_email_open i l (lead.display_name.getD "Unknown")
            payload.event.data.subject (Main.recipient_of payload.event.data.to_field)
            payload.event.data.opens.length now now] } := by
  obtain ⟨⟨ot, ac, cf, ⟨did, dlid, dsub, dto, dopens⟩⟩⟩ := payload
  simp only at hot hact hcf hid hlid
  subst hot hact hid hlid
  simp [Main.process_webhook_event, hcf, hgl, hmiss]

/-- Helper: a run on a relevant payload whose id is already cached returns
immediately after the membership test; only the purge side effect on the
cache remains. -/
theorem process_dedup_hit
    (getLead : Option String → Except Unit CloseIOClient.Lead)
    (notifyOk logOk : Bool)
    (st : Main.PipelineState) (payload : Main.WebhookPayload) (now ret : Int)
    (hot : payload.event.object_type = some "activity.email")
    (hact : payload.event.action = some "updated")
    (hcf : "opens" ∈ payload.event.changed_fields)
    (hhit : (st.cache.is_notified payload.event.data.id now ret).1 = true) :
    Main.process_webhook_event getLead notifyOk logOk now ret st payload =
      { st with cache := (st.cache.is_notified payload.event.data.id now ret).2 } := by
  obtain ⟨⟨ot, ac, cf, ⟨did, dlid, dsub, dto, dopens⟩⟩⟩ := payload
  simp only at hot hact hcf hhit
  subst hot hact
  simp [Main.process_webhook_event, hcf, hhit]

/-- Helper: a run on a relevant payload whose id is not cached but whose
lead lookup raises drops the event: no notification, no analytics row, no
marking; only the purge side effect remains. -/
theorem process_enrich_error
    (getLead : Option String → Except Unit CloseIOClient.Lead)
    (notifyOk logOk : Bool)
    (st : Main.PipelineState) (payload : Main.WebhookPayload) (now ret : Int)
    (hot : payload.event.object_type = some "activity.email")
    (hact : payload.event.action = some "updated")
    (hcf : "opens" ∈ payload.event.changed_fields)
    (hgl : getLead payload.event.data.lead_id = .error ()) :
    Main.process_webhook_event getLead notifyOk logOk now ret st payload =
      { st with cache := (st.cache.is_notified payload.event.data.id now ret).2 } := by
  obtain ⟨⟨ot, ac, cf, ⟨did, dlid, dsub, dto, dopens⟩⟩⟩ := payload
  simp only at hot hact hcf hgl
  subst hot hact
  by_cases hhit : (st.cache.is_notified did now ret).1 = true
  · simp [Main.process_webhook_event, hcf, hhit]
  · simp only [Bool.not_eq_true] at hhit
    simp [Main.process_webhook_event, hcf, hhit, hgl]

/-- Helper: after `mark_notified i t`, a later `is_notified i` query at time
`t'` answers true exactly when `t' ≤ t + ret` (the fresh entry is the only
one with key `i`, and it survives the purge exactly within the window). -/
theorem mark_is_notified {κ : Type} [DecidableEq κ]
    (c : Cache.EventCache κ) (i : κ) (t t' ret : Int) :
    ((c.mark_notified i t).is_notified i t' ret).1 = decide (t' ≤ t + ret) := by
  simp only [Cache.EventCache.is_notified, Cache.EventCache.mark_notified,
    Cache.EventCache.cleanup_old_entries, List.filter_append, List.any_append]
  have h1 : (List.filter (fun p => decide (¬ p.2 < t' - ret))
      (List.filter (fun (p : κ × Int) => decide (¬ p.1 = i)) c.entries)).any
        (fun p => decide (p.1 = i)) = false := by
    rw [List.any_eq_false]
    intro p hp
    simp only [List.mem_filter, decide_eq_true_eq] at hp
    simp [hp.1.2]
  rw [h1]
  by_cases hkeep : t' ≤ t + ret
  · have : decide (¬ (i, t).2 < t' - ret) = true := by
      simp only [decide_eq_true_eq]
      omega
    simp [List.filter, this, hkeep]
  · have : decide (¬ (i, t).2 < t' - ret) = false := by
      simp only [decide_eq_false_iff_not, Decidable.not_not]
      omega
    simp [List.filter, this, hkeep]

/-- Helper: the best-effort delivery loop posts to exactly those selected
destinations whose individual post succeeds. -/
theorem mem_send_loop (deliver : Discord.Webhook → Except Unit Unit)
    (l : List Discord.Webhook) (w : Discord.Webhook) :
    w ∈ Discord.send_loop deliver l ↔ w ∈ l ∧ deliver w = .ok () := by
  induction l with
  | nil => simp [Discord.send_loop]
  | cons x xs ih =>
    simp only [Discord.send_loop]
    cases hx : deliver x with
    | ok u =>
      cases u
      simp only [List.mem_cons, ih]
      constructor
      · rintro (rfl | ⟨hm, hd⟩)
        · exact ⟨Or.inl rfl, hx⟩
        · exact ⟨Or.inr hm, hd⟩
      · rintro ⟨rfl | hm, hd⟩
        · exact Or.inl rfl
        · exact Or.inr ⟨hm, hd⟩
    | error u =>
      cases u
      rw [ih]
      simp only [List.mem_cons]
      constructor
      · rintro ⟨hm, hd⟩
        exact ⟨Or.inr hm, hd⟩
      · rintro ⟨rfl | hm, hd⟩
        · rw [hx] at hd
          cases hd
        · exact ⟨hm, hd⟩

/-- Claim C5: an identifier marked at time `t` is reported not-notified by
any query strictly later than `t + retention` (the entry is purged before
the membership test), and is reported notified by any query at or before
`t + retention`. -/
theorem cache_expiry (c : Cache.EventCache String) (i : String) (t tq ret : Int) :
    (t + ret < tq → ((c.mark_notified i t).is_notified i tq ret).1 = false) ∧
    (tq ≤ t + ret → ((c.mark_notified i t).is_notified i tq ret).1 = true) := by
  constructor
  · intro h
    rw [mark_is_notified]
    simp only [decide_eq_false_iff_not]
    omega
  · intro h
    rw [mark_is_notified]
    simp only [decide_eq_true_eq]
    exact h

/-- Witness for C5 at concrete values: marked at time 100 with retention
50, a query at 151 answers false and a query at 150 answers true. -/
theorem cache_expiry_witness :
    ((Cache.EventCache.mk [] |>.mark_notified "e1" 100).is_notified "e1" 151 50).1 = false ∧
    ((Cache.EventCache.mk [] |>.mark_notified "e1" 100).is_notified "e1" 150 50).1 = true :=
  ⟨(cache_expiry ⟨[]⟩ "e1" 100 151 50).1 (by decide),
   (cache_expiry ⟨[]⟩ "e1" 100 150 50).2 (by decide)⟩

/-- Claim C1: ingesting the same relevant event twice with the same id
within the retention window (the first run with every effect succeeding)
dispatches exactly one notification and appends exactly one analytics row;
the second run finds `is_notified` true and stops before notifying or
logging. -/
theorem dedup_idempotent
    (getLead : Option String → Except Unit CloseIOClient.Lead) (lead : CloseIOClient.Lead)
    (payload : Main.WebhookPayload) (i l : String) (t1 t2 ret : Int)
    (hot : payload.event.object_type = some "activity.email")
    (hact : payload.event.action = some "updated")
    (hcf : "opens" ∈ payload.event.changed_fields)
    (hid : payload.event.data.id = some i)
    (hlid : payload.event.data.lead_id = some l)
    (hgl : getLead (some l) = .ok lead)
    (hwin : t2 ≤ t1 + ret) :
    let st1 := Main.process_webhook_event getLead true true t1 ret Main.initState payload
    let st2 := Main.process_webhook_event getLead true true t2 ret st1 payload
    st1.notifications.length = 1 ∧ st1.analytics.length = 1 ∧
    (st1.cache.is_notified (some i) t2 ret).1 = true ∧
    st2.notifications = st1.notifications ∧ st2.analytics = st1.analytics := by
  intro st1 st2
  have hmiss : (Main.initState.cache.is_notified (some i) t1 ret).1 = false := rfl
  have h1 : st1 = _ := process_full_run getLead lead Main.initState payload i l t1 ret
    hot hact hcf hid hlid hgl hmiss
  have hcache : st1.cache = (Cache.EventCache.mk []).mark_notified (some i) t1 := by
    rw [h1]
    rfl
  have hhit : (st1.cache.is_notified (some i) t2 ret).1 = true := by
    rw [hcache, mark_is_notified]
    simp only [decide_eq_true_eq]
    exact hwin
  have h2 : st2 = { st1 with cache := (st1.cache.is_notified payload.event.data.id t2 ret).2 } :=
    process_dedup_hit getLead true true st1 payload t2 ret hot hact hcf (by rw [hid]; exact hhit)
  refine ⟨?_, ?_, hhit, ?_, ?_⟩
  · rw [h1]
    simp [Main.initState]
  · rw [h1]
    simp [Main.initState]
  · rw [h2]
  · rw [h2]

/-- Witness for C1: the end-to-end payload ingested twice one hour apart
with a 24-hour (86400 s) retention yields one notification, one analytics
row, a cache hit on the second run, and no new effects from it. -/
theorem dedup_idempotent_witness :
    let st1 := Main.process_webhook_event getLeadAcme true true 1735725600 86400
      Main.initState payload9
    let st2 := Main.process_webhook_event getLeadAcme true true 1735729200 86400 st1 payload9
    st1.notifications.length = 1 ∧ st1.analytics.length = 1 ∧
    (st1.cache.is_notified (some "e1") 1735729200 86400).1 = true ∧
    st2.notifications = st1.notifications ∧ st2.analytics = st1.analytics :=
  dedup_idempotent getLeadAcme leadAcme payload9 "e1" "L1" 1735725600 1735729200 86400
    rfl rfl (by decide) rfl rfl rfl (by decide)

/-- Claim C2: with Bright Data configured but failing and Apify configured
and succeeding, `scrape_company` returns the Apify record tagged
`source = "apify"`; the providers are invoked in priority order
(`bright_data` then `apify`) and joeyism is never invoked, whatever its
configuration or outcome. -/
theorem fallback_ordering
    (cfg : Scraper.ScraperConfig) (raw : Scraper.RawCompany)
    (jo : Except Unit Scraper.RawCompany)
    (hbd : strTruthy cfg.brightdata_key = true)
    (hap : strTruthy cfg.apify_key = true) :
    (Scraper.scrape_company cfg (.error ()) (.ok raw) jo).1 =
      .ok { name := raw.name, industry := raw.industry
            company_size := raw.company_size, headquarters := raw.headquarters
            founded := raw.founded, specialties := raw.specialties
            description := raw.description, website := raw.website
            employee_count := Scraper.parse_employee_count raw.company_size
            source := "apify" } ∧
    (Scraper.scrape_company cfg (.error ()) (.ok raw) jo).2 = ["bright_data", "apify"] ∧
    "joeyism" ∉ (Scraper.scrape_company cfg (.error ()) (.ok raw) jo).2 := by
  refine ⟨?_, ?_, ?_⟩ <;>
    simp [Scraper.scrape_company, Scraper.scrape_company_brightdata,
      Scraper.scrape_company_apify, hbd, hap, Except.map]

/-- Witness for C2 at a concrete configuration and payload. -/
theorem fallback_ordering_witness :
    (Scraper.scrape_company { brightdata_key := some "bd", apify_key := some "ap" }
        (.error ()) (.ok { name := some "Acme" }) (.error ())).1 =
      .ok { name := some "Acme", source := "apify" } ∧
    (Scraper.scrape_company { brightdata_key := some "bd", apify_key := some "ap" }
        (.error ()) (.ok { name := some "Acme" }) (.error ())).2 = ["bright_data", "apify"] ∧
    "joeyism" ∉ (Scraper.scrape_company { brightdata_key := some "bd", apify_key := some "ap" }
        (.error ()) (.ok { name := some "Acme" }) (.error ())).2 :=
  fallback_ordering { brightdata_key := some "bd", apify_key := some "ap" }
    { name := some "Acme" } (.error ()) (by decide) (by decide)

/-- Counterexample to C3 as stated: with both providers configured and both
failing, the company-posts resolver returns the empty list (a normal `.ok`
result), and the personal-profile resolver returns the empty dict — neither
fails with an error naming the request. -/
theorem fallback_exhaustion_cex :
    (Scraper.get_company_posts { brightdata_key := some "bd", apify_key := some "ap" }
        (.error ()) (.error ()) 10).1 = .ok [] ∧
    (Scraper.scrape_profile { brightdata_key := some "bd" } (.error ())).1 = .ok [] := by
  constructor <;> rfl

/-- Claim C3 as amended: only `scrape_company` reports an error on
exhaustion (`"All LinkedIn scraping methods failed"` after every configured
provider failed, `"No LinkedIn scraping method available"` when no provider
is configured); `get_company_posts` returns the empty list and
`scrape_profile` the empty dict when their providers are exhausted. -/
theorem fallback_exhaustion_amended :
    (∀ cfg : Scraper.ScraperConfig, strTruthy cfg.brightdata_key = true →
      strTruthy cfg.apify_key = true → cfg.use_joeyism = true →
      (Scraper.scrape_company cfg (.error ()) (.error ()) (.error ())).1 =
        .error "All LinkedIn scraping methods failed") ∧
    (∀ cfg : Scraper.ScraperConfig, strTruthy cfg.brightdata_key = false →
      strTruthy cfg.apify_key = false → cfg.use_joeyism = false →
      ∀ bd ap jo, (Scraper.scrape_company cfg bd ap jo).1 =
        .error "No LinkedIn scraping method available") ∧
    (∀ (cfg : Scraper.ScraperConfig) (limit : Nat), strTruthy cfg.brightdata_key = true →
      strTruthy cfg.apify_key = true →
      (Scraper.get_company_posts cfg (.error ()) (.error ()) limit).1 = .ok []) ∧
    (∀ cfg : Scraper.ScraperConfig, strTruthy cfg.brightdata_key = true →
      (Scraper.scrape_profile cfg (.error ())).1 = .ok []) := by
  refine ⟨?_, ?_, ?_, ?_⟩
  · intro cfg hbd hap hjo
    simp [Scraper.scrape_company, Scraper.scrape_company_brightdata,
      Scraper.scrape_company_apify, Scraper.scrape_company_joeyism, hbd, hap, hjo, Except.map]
  · intro cfg hbd hap hjo bd ap jo
    simp [Scraper.scrape_company, hbd, hap, hjo]
  · intro cfg limit hbd hap
    simp [Scraper.get_company_posts, Scraper.get_posts_brightdata,
      Scraper.get_posts_apify, hbd, hap, Except.map]
  · intro cfg hbd
    simp [Scraper.scrape_profile, hbd]

/-- Witness for the amended C3 at concrete configurations. -/
theorem fallback_exhaustion_amended_witness :
    (Scraper.scrape_company
        { brightdata_key := some "bd", apify_key := some "ap", use_joeyism := true }
        (.error ()) (.error ()) (.error ())).1 =
      .error "All LinkedIn scraping methods failed" ∧
    (Scraper.scrape_company {} (.error ()) (.error ()) (.error ())).1 =
      .error "No LinkedIn scraping method available" ∧
    (Scraper.get_company_posts { brightdata_key := some "bd", apify_key := some "ap" }
        (.error ()) (.error ()) 10).1 = .ok [] ∧
    (Scraper.scrape_profile { brightdata_key := some "bd" } (.error ())).1 = .ok [] :=
  ⟨fallback_exhaustion_amended.1 _ (by decide) (by decide) rfl,
   fallback_exhaustion_amended.2.1 {} (by decide) (by decide) rfl (.error ()) (.error ()) (.error ()),
   fallback_exhaustion_amended.2.2.1 _ 10 (by decide) (by decide),
   fallback_exhaustion_amended.2.2.2 _ (by decide)⟩

/-- Claim C4: with a (truthy) configured secret, an inbound webhook request
with both headers present is accepted iff the supplied signature equals
`HMAC-SHA256(secret, timestamp || raw_body)` (the constant-time
`hmac.compare_digest` is modelled by its value, string equality); a missing
or empty header is rejected with the missing-headers error, a mismatching
signature with the invalid-signature error; with no secret configured every
request is accepted. -/
theorem signature_verification
    (secret : String) (hmacHex : String → String → String)
    (body ts sig : String) (hsec : ¬ secret = "") :
    (Main.closeio_webhook (some secret) hmacHex body (some sig) (some ts) =
        .received ↔ (¬ sig = "" ∧ ¬ ts = "" ∧ hmacHex secret (ts ++ body) = sig)) ∧
    (Main.closeio_webhook (some secret) hmacHex body none (some ts) =
        .unauthorized "Missing signature headers") ∧
    (Main.closeio_webhook (some secret) hmacHex body (some sig) none =
        .unauthorized "Missing signature headers") ∧
    (¬ sig = "" → ¬ ts = "" → ¬ hmacHex secret (ts ++ body) = sig →
      Main.closeio_webhook (some secret) hmacHex body (some sig) (some ts) =
        .unauthorized "Invalid signature") ∧
    (∀ (secret0 : Option String) (sigh tsh : Option String), strTruthy secret0 = false →
      Main.closeio_webhook secret0 hmacHex body sigh tsh = .received) := by
  refine ⟨?_, ?_, ?_, ?_, ?_⟩
  · constructor
    · intro h
      by_cases hs : sig = ""
      · simp [Main.closeio_webhook, strTruthy, hsec, hs] at h
      · by_cases ht : ts = ""
        · simp [Main.closeio_webhook, strTruthy, hsec, hs, ht] at h
        · refine ⟨hs, ht, ?_⟩
          by_cases hm : hmacHex secret (ts ++ body) = sig
          · exact hm
          · simp [Main.closeio_webhook, CloseIOClient.verify_webhook_signature,
              strTruthy, hsec, hs, ht, hm] at h
    · rintro ⟨hs, ht, hm⟩
      simp [Main.closeio_webhook, CloseIOClient.verify_webhook_signature,
        strTruthy, hsec, hs, ht, hm]
  · simp [Main.closeio_webhook, strTruthy, hsec]
  · simp [Main.closeio_webhook, strTruthy, hsec]
  · intro hs ht hm
    simp [Main.closeio_webhook, CloseIOClient.verify_webhook_signature,
      strTruthy, hsec, hs, ht, hm]
  · intro secret0 sigh tsh h0
    simp only [Main.closeio_webhook, h0, Bool.false_eq_true, if_false]

/-- Witness for C4 with a concrete toy keyed hash: the correctly signed
request is accepted, header-less and mismatching requests are rejected, and
with no secret everything passes. -/
theorem signature_verification_witness :
    (Main.closeio_webhook (some "s3cret") (fun k m => k ++ "/" ++ m) "body"
        (some ("s3cret/tsbody")) (some "ts") = .received ↔
      (¬ "s3cret/tsbody" = "" ∧ ¬ "ts" = "" ∧
        (fun (k m : String) => k ++ "/" ++ m) "s3cret" ("ts" ++ "body") = "s3cret/tsbody")) ∧
    (Main.closeio_webhook (some "s3cret") (fun k m => k ++ "/" ++ m) "body"
        none (some "ts") = .unauthorized "Missing signature headers") ∧
    (Main.closeio_webhook (some "s3cret") (fun k m => k ++ "/" ++ m) "body"
        (some "s3cret/tsbody") none = .unauthorized "Missing signature headers") ∧
    (¬ "s3cret/tsbody" = "" → ¬ "ts" = "" →
      ¬ (fun (k m : String) => k ++ "/" ++ m) "s3cret" ("ts" ++ "body") = "s3cret/tsbody" →
      Main.closeio_webhook (some "s3cret") (fun k m => k ++ "/" ++ m) "body"
        (some "s3cret/tsbody") (some "ts") = .unauthorized "Invalid signature") ∧
    (∀ (secret0 sigh tsh : Option String), strTruthy secret0 = false →
      Main.closeio_webhook secret0 (fun k m => k ++ "/" ++ m) "body" sigh tsh = .received) :=
  signature_verification "s3cret" (fun k m => k ++ "/" ++ m) "body" "ts"
    "s3cret/tsbody" (by decide)

/-- Claim C6: notification fan-out is best-effort and independent per
destination: every selected destination whose post succeeds receives the
payload regardless of failures at other destinations, everything delivered
went to a selected destination that succeeded, the selection is the
name-filtered list under a truthy filter and the full list otherwise, and
the call returns normally (a plain list, no exception) by construction. -/
theorem fanout_independence
    (webhooks : List Discord.Webhook) (deliver : Discord.Webhook → Except Unit Unit)
    (event : Models.EmailOpenEvent) (wn : Option String) (n : String) (hn : ¬ n = "") :
    (∀ w ∈ Discord.webhooks_to_use webhooks wn, deliver w = .ok () →
      (w, event) ∈ Discord.send_email_open_notification webhooks deliver event wn) ∧
    (∀ wp ∈ Discord.send_email_open_notification webhooks deliver event wn,
      wp.1 ∈ Discord.webhooks_to_use webhooks wn ∧ deliver wp.1 = .ok () ∧
      wp.2 = event) ∧
    (Discord.webhooks_to_use webhooks (some n) =
      webhooks.filter (fun w => decide (w.name = n))) ∧
    (Discord.webhooks_to_use webhooks none = webhooks) := by
  refine ⟨?_, ?_, ?_, ?_⟩
  · intro w hw hd
    simp only [Discord.send_email_open_notification, List.mem_map]
    exact ⟨w, (mem_send_loop deliver _ w).2 ⟨hw, hd⟩, rfl⟩
  · intro wp hp
    simp only [Discord.send_email_open_notification, List.mem_map] at hp
    obtain ⟨w', hw', heq⟩ := hp
    subst heq
    obtain ⟨hm, hd⟩ := (mem_send_loop deliver _ w').1 hw'
    exact ⟨hm, hd, rfl⟩
  · simp [Discord.webhooks_to_use, strTruthy, hn]
  · simp [Discord.webhooks_to_use, strTruthy]

/-- Witness for C6: with destination X failing and Y succeeding and no
filter, Y receives the payload. -/
theorem fanout_independence_witness :
    let x : Discord.Webhook := { url := "ux", name := "X" }
    let y : Discord.Webhook := { url := "uy", name := "Y" }
    let deliver : Discord.Webhook → Except Unit Unit :=
      fun w => if w.name = "X" then .error () else .ok ()
    let ev : Models.EmailOpenEvent :=
      { email_id := "e1", lead_id := "L1", lead_name := "Acme", subject := ""
        recipient := "", opens_count := 1, opened_at := 0 }
    (y, ev) ∈ Discord.send_email_open_notification [x, y] deliver ev none := by
  intro x y deliver ev
  exact (fanout_independence [x, y] deliver ev none "Y" (by decide)).1 y
    (by
      rw [(fanout_independence [x, y] deliver ev none "Y" (by decide)).2.2.2]
      decide)
    (by rfl)

/-- Counterexample to C7 as stated: on the webhook ingestion path a raising
lead lookup is NOT recovered with a sentinel — the event is dropped: no
notification, no analytics row, and the id is not marked. -/
theorem enrichment_failure_cex :
    (Main.process_webhook_event getLeadFail true true 1735725600 86400
        Main.initState payload9).notifications = [] ∧
    (Main.process_webhook_event getLeadFail true true 1735725600 86400
        Main.initState payload9).analytics = [] ∧
    (Main.process_webhook_event getLeadFail true true 1735725600 86400
        Main.initState payload9).cache.entries = [] := by
  refine ⟨rfl, rfl, rfl⟩

/-- Claim C7 as amended: the sentinel recovery holds on the polling path
(a raising `get_lead` yields `lead_name = "Unknown"`), and on the webhook
path only for a missing `display_name` field of a successful lookup (the
pipeline then completes with the sentinel); a raising lookup on the webhook
path aborts that event (no notification, no analytics row). -/
theorem enrichment_failure_amended :
    (∀ (getLead : Option String → Except Unit CloseIOClient.Lead) (lid : Option String),
      getLead lid = .error () → CloseIOClient.polling_lead_name getLead lid = "Unknown") ∧
    (∀ (getLead : Option String → Except Unit CloseIOClient.Lead) (now ret : Int),
      getLead (some "L1") = .ok { display_name := none } → 0 ≤ ret →
      let st := Main.process_webhook_event getLead true true now ret Main.initState payload9
      st.notifications.map (fun e => e.lead_name) = ["Unknown"] ∧
      st.analytics.map (fun r => r.lead_name) = ["Unknown"] ∧
      (st.cache.is_notified (some "e1") now ret).1 = true) ∧
    (∀ (getLead : Option String → Except Unit CloseIOClient.Lead)
        (st : Main.PipelineState) (payload : Main.WebhookPayload) (now ret : Int),
      payload.event.object_type = some "activity.email" →
      payload.event.action = some "updated" →
      "opens" ∈ payload.event.changed_fields →
      getLead payload.event.data.lead_id = .error () →
      (Main.process_webhook_event getLead true true now ret st payload).notifications =
          st.notifications ∧
      (Main.process_webhook_event getLead true true now ret st payload).analytics =
          st.analytics) := by
  refine ⟨?_, ?_, ?_⟩
  · intro getLead lid h
    simp [CloseIOClient.polling_lead_name, h]
  · intro getLead now ret hgl hret st
    have hmiss : (Main.initState.cache.is_notified (some "e1") now ret).1 = false := rfl
    have h1 : st = _ := process_full_run getLead { display_name := none }
      Main.initState payload9 "e1" "L1" now ret rfl rfl (by decide) rfl rfl hgl hmiss
    refine ⟨?_, ?_, ?_⟩
    · rw [h1]
      rfl
    · rw [h1]
      rfl
    · have hc : st.cache = (Cache.EventCache.mk []).mark_notified (some "e1") now := by
        rw [h1]
        rfl
      rw [hc, mark_is_notified]
      simp only [decide_eq_true_eq]
      omega
  · intro getLead st payload now ret hot hact hcf hgl
    have h := process_enrich_error getLead true true st payload now ret hot hact hcf hgl
    rw [h]
    exact ⟨rfl, rfl⟩

/-- Witness for the amended C7 at concrete inputs. -/
theorem enrichment_failure_amended_witness :
    CloseIOClient.polling_lead_name getLeadFail (some "L1") = "Unknown" ∧
    (let st := Main.process_webhook_event (fun _ => .ok { display_name := none })
        true true 1735725600 86400 Main.initState payload9;
      st.notifications.map (fun e => e.lead_name) = ["Unknown"] ∧
      st.analytics.map (fun r => r.lead_name) = ["Unknown"] ∧
      (st.cache.is_notified (some "e1") 1735725600 86400).1 = true) ∧
    ((Main.process_webhook_event getLeadFail true true 1735725600 86400
        Main.initState payload9).notifications = Main.initState.notifications ∧
      (Main.process_webhook_event getLeadFail true true 1735725600 86400
        Main.initState payload9).analytics = Main.initState.analytics) :=
  ⟨enrichment_failure_amended.1 getLeadFail (some "L1") rfl,
   enrichment_failure_amended.2.1 (fun _ => .ok { display_name := none })
     1735725600 86400 rfl (by decide),
   enrichment_failure_amended.2.2 getLeadFail Main.initState payload9
     1735725600 86400 rfl rfl (by decide) rfl⟩

/-- C8 divergence, evaluated at the failing input: the Discord notification
for `e1` succeeds, the analytics write raises, so the id is never marked
(`mark_notified` runs only after a successful log); redelivering the same
event one hour later, well within the 24-hour retention window, sends a
second notification. -/
theorem log_failure_renotifies :
    (Main.process_webhook_event getLeadAcme true false 1735725600 86400
      Main.initState payload9).notifications.length = 1 ∧
    (Main.process_webhook_event getLeadAcme true false 1735725600 86400
      Main.initState payload9).analytics = [] ∧
    (Main.process_webhook_event getLeadAcme true false 1735725600 86400
      Main.initState payload9).cache.entries = [] ∧
    ((Main.process_webhook_event getLeadAcme true false 1735725600 86400
      Main.initState payload9).cache.is_notified (some "e1") 1735729200 86400).1 = false ∧
    (Main.process_webhook_event getLeadAcme true true 1735729200 86400
      (Main.process_webhook_event getLeadAcme true false 1735725600 86400
        Main.initState payload9) payload9).notifications.length = 2 := by
  exact ⟨rfl, rfl, rfl, rfl, rfl⟩

/-- Counterexample to C9 as stated: processing the end-to-end payload at
2025-01-02T15:00:00 (a Thursday) yields one analytics record with
`hour_opened = 15` and `day_of_week = 3` — the derived fields come from the
processing time, not from the payload open timestamp 2025-01-01T10:00:00,
so they are not 10 and 2. -/
theorem end_to_end_cex :
    ((Main.process_webhook_event getLeadAcme true true 1735830000 86400
        Main.initState payload9).analytics.map
      (fun r => (r.hour_opened, r.day_of_week))) = [((15 : Int), (3 : Int))] ∧
    ¬ (((15 : Int), (3 : Int)) = (((10 : Int), (2 : Int)))) := by
  exact ⟨rfl, by decide⟩

/-- Claim C9 as amended: processing the end-to-end webhook payload (id
`e1`, lead `L1`, one open at 2025-01-01T10:00:00) with a successful lead
lookup produces exactly one notification referencing `e1` and one analytics
record, after which `is_notified("e1")` is true; the derived fields of the
record are computed from the processing time `now` (the webhook path logs
`opened_at = datetime.now()`), so `hour_opened = 10` and `day_of_week = 2`
hold exactly when processing happens on a Wednesday within hour 10, e.g. at
2025-01-01T10:00:00 itself. -/
theorem end_to_end_amended
    (getLead : Option String → Except Unit CloseIOClient.Lead) (lead : CloseIOClient.Lead)
    (now ret : Int) (hgl : getLead (some "L1") = .ok lead) (hret : 0 ≤ ret) :
    let st := Main.process_webhook_event getLead true true now ret Main.initState payload9
    st.notifications.map (fun e => e.email_id) = ["e1"] ∧
    st.analytics.map (fun r => (r.email_id, r.hour_opened, r.day_of_week)) =
      [("e1", Time.hourOf now, Time.weekdayOf now)] ∧
    (st.cache.is_notified (some "e1") now ret).1 = true := by
  intro st
  have hmiss : (Main.initState.cache.is_notified (some "e1") now ret).1 = false := rfl
  have h1 : st = _ := process_full_run getLead lead Main.initState payload9 "e1" "L1"
    now ret rfl rfl (by decide) rfl rfl hgl hmiss
  refine ⟨?_, ?_, ?_⟩
  · rw [h1]
    rfl
  · rw [h1]
    simp [Main.initState, DB.log_email_open]
  · have hc : st.cache = (Cache.EventCache.mk []).mark_notified (some "e1") now := by
      rw [h1]
      rfl
    rw [hc, mark_is_notified]
    simp only [decide_eq_true_eq]
    omega

/-- Witness for the amended C9: processed exactly at 2025-01-01T10:00:00
the derived fields are 10 and 2 (Wednesday). -/
theorem end_to_end_amended_witness :
    let st := Main.process_webhook_event getLeadAcme true true 1735725600 86400
      Main.initState payload9;
    st.notifications.map (fun e => e.email_id) = ["e1"] ∧
    st.analytics.map (fun r => (r.email_id, r.hour_opened, r.day_of_week)) =
      [("e1", Time.hourOf 1735725600, Time.weekdayOf 1735725600)] ∧
    (st.cache.is_notified (some "e1") 1735725600 86400).1 = true :=
  end_to_end_amended getLeadAcme leadAcme 1735725600 86400 rfl (by decide)

/-- Claim C10: the `/stats` endpoint reports `total_notifications` equal to
`cache_size`, both being the current number of cache entries — not a
cumulative count of notifications ever sent: the count drops to zero after
the cache is cleared or after a purge past the retention window removes the
entries, even though a notification was dispatched. -/
theorem stats_reflect_cache :
    (∀ c : Cache.EventCache (Option String),
      (Main.get_stats c).total_notifications = (Main.get_stats c).cache_size ∧
      (Main.get_stats c).total_notifications = c.entries.length) ∧
    (∀ c : Cache.EventCache (Option String),
      (Main.get_stats c.clear).total_notifications = 0) ∧
    (∀ (c : Cache.EventCache (Option String)) (now ret : Int),
      (Main.get_stats (c.cleanup_old_entries now ret)).total_notifications ≤
        (Main.get_stats c).total_notifications) ∧
    (∀ (getLead : Option String → Except Unit CloseIOClient.Lead) (lead : CloseIOClient.Lead)
        (t1 t2 ret : Int), getLead (some "L1") = .ok lead → t1 + ret < t2 →
      let st1 := Main.process_webhook_event getLead true true t1 ret Main.initState payload9
      st1.notifications.length = 1 ∧
      (Main.get_stats (st1.cache.is_notified (some "e1") t2 ret).2).total_notifications
        = 0) := by
  refine ⟨?_, ?_, ?_, ?_⟩
  · intro c
    exact ⟨rfl, rfl⟩
  · intro c
    rfl
  · intro c now ret
    simpa [Main.get_stats, Cache.EventCache.get_stats,
      Cache.EventCache.cleanup_old_entries] using
      List.length_filter_le (fun p => decide (¬ p.2 < now - ret)) c.entries
  · intro getLead lead t1 t2 ret hgl hexp st1
    have hmiss : (Main.initState.cache.is_notified (some "e1") t1 ret).1 = false := rfl
    have h1 : st1 = _ := process_full_run getLead lead Main.initState payload9 "e1" "L1"
      t1 ret rfl rfl (by decide) rfl rfl hgl hmiss
    constructor
    · rw [h1]
      rfl
    · have hc : st1.cache = (Cache.EventCache.mk []).mark_notified (some "e1") t1 := by
        rw [h1]
        rfl
      rw [hc]
      have hdrop : t1 < t2 - ret := by omega
      simp [Cache.EventCache.is_notified, Cache.EventCache.cleanup_old_entries,
        Cache.EventCache.mark_notified, Main.get_stats, Cache.EventCache.get_stats,
        List.filter, hdrop]

/-- Witness for C10 at concrete inputs: a one-entry cache, its clear, a
purge that removes the expired entry, and a full ingest whose cache entry
expires before a later query. -/
theorem stats_reflect_cache_witness :
    ((Main.get_stats ⟨[(some "a", 5)]⟩).total_notifications =
      (Main.get_stats ⟨[(some "a", 5)]⟩).cache_size ∧
     (Main.get_stats ⟨[(some "a", 5)]⟩).total_notifications =
      (Cache.EventCache.mk [(some "a", 5)]).entries.length) ∧
    (Main.get_stats (Cache.EventCache.clear ⟨[(some "a", 5)]⟩)).total_notifications = 0 ∧
    (Main.get_stats ((Cache.EventCache.mk [(some "a", 5)]).cleanup_old_entries 100 50)).total_notifications ≤
      (Main.get_stats ⟨[(some "a", 5)]⟩).total_notifications ∧
    (let st1 := Main.process_webhook_event getLeadAcme true true 1735725600 86400
        Main.initState payload9;
      st1.notifications.length = 1 ∧
      (Main.get_stats (st1.cache.is_notified (some "e1") 1735898400 86400).2).total_notifications
        = 0) :=
  ⟨stats_reflect_cache.1 ⟨[(some "a", 5)]⟩,
   stats_reflect_cache.2.1 ⟨[(some "a", 5)]⟩,
   stats_reflect_cache.2.2.1 ⟨[(some "a", 5)]⟩ 100 50,
   stats_reflect_cache.2.2.2 getLeadAcme leadAcme 1735725600 1735898400 86400 rfl (by decide)⟩
